import Mathlib

/-!
# Verification of the quant-app ingestion / throttling / aggregation core

Shallow embedding of `src/frontend/src/pages/Index.tsx` (the ingestion,
throttling and aggregation core of the repository) and proofs of the
spec claims about it.

Modelling conventions:
* Instants are milliseconds since the Unix epoch, as `Nat`.  The source
  stores bucket timestamps as ISO-8601 strings produced by
  `Date.toISOString()`; on valid post-epoch dates that encoding is
  injective and order-preserving, so string equality (`last.ts === bucketTs`)
  and `getTime` comparisons are modelled as `Nat` equality / order.
* JS `number` values are modelled exactly:  finite numbers as `ℚ`
  (all arithmetic appearing in the claims is exact at the magnitudes
  involved), and the non-finite values `Infinity`, `-Infinity`, `NaN`
  as extra constructors of `JSNum`.
* JS subtraction `now - last` compared with `< 100` behaves, for the
  clock values that actually occur (`now ≥ 0`), exactly like truncated
  `Nat` subtraction: a negative difference and a truncated-to-zero
  difference are both `< 100`, and a positive difference agrees.
-/

/-- JS runtime numbers: finite values modelled exactly as rationals,
plus the non-finite values.  The JS typeof-number test is true for all
four constructors; `Number.isFinite` only for `fin`. -/
inductive JSNum where
  | fin : ℚ → JSNum
  | inf : JSNum
  | negInf : JSNum
  | nan : JSNum
deriving DecidableEq

/-- JS values, as far as the modelled code inspects them. -/
inductive JSVal where
  | undef : JSVal
  | jsNull : JSVal
  | num : JSNum → JSVal
  | str : String → JSVal
  | bool : Bool → JSVal
deriving DecidableEq

/-- Test for the JS typeof-number check on a value. -/
def isNumberType : JSVal → Bool
  | .num _ => true
  | _ => false

/-- Test `Number.isFinite` on a `JSNum`. -/
def isFiniteNum : JSNum → Bool
  | .fin _ => true
  | _ => false

/-- The finite value of a `JSNum`; the non-finite values are mapped to
`0`.  Every theorem below that inspects a price value only does so for
finite prices; the only claim touching a non-finite price (C9) relies
exclusively on the tick counter, which the source increments before the
price value is ever used arithmetically. -/
def JSNum.toQ : JSNum → ℚ
  | .fin q => q
  | _ => 0

/-- JS nullish coalescing `a ?? b`. -/
def nullishOr (a b : JSVal) : JSVal :=
  match a with
  | .undef => b
  | .jsNull => b
  | _ => a

/-- One OHLCV candle, `Index.tsx` type `Candle`
(`{ts, open, high, low, close, volume}`).  `ts` is the bucket start
(field `opn` stands for the source field `open`, a Lean keyword). -/
structure Candle where
  ts : Nat
  opn : ℚ
  high : ℚ
  low : ℚ
  close : ℚ
  volume : ℚ
deriving DecidableEq

/-- Per-symbol 24h ticker state, `Index.tsx` `tickerData` entry type. -/
structure Ticker where
  priceChange : ℚ
  priceChangePercent : ℚ
  lastPrice : ℚ
  openPrice : ℚ
  highPrice : ℚ
  lowPrice : ℚ
  volume : ℚ
  quoteVolume : ℚ
deriving DecidableEq

/-- A `(ts, value)` series point (`Index.tsx` type `SeriesPoint`). -/
structure SeriesPoint where
  ts : Nat
  value : ℚ
deriving DecidableEq

/-- Source `Index.tsx` interface `AnalyticsSnapshot`; the series are opaque
payloads for the claims below. -/
structure AnalyticsSnapshot where
  pair : String
  hedge_ratio : List SeriesPoint
  spread : List SeriesPoint
  zscore : List SeriesPoint
  rolling_corr : List SeriesPoint
  adf : Option (ℚ × ℚ)
deriving DecidableEq

/-- The pending throttle slot, `Index.tsx` `pendingUpdatesRef` entry
(`{price, qty, ts, time}`; `ts` and `time` both derive from the ts
payload of the tick and are modelled as the single instant `ts`). -/
structure Pending where
  price : ℚ
  qty : ℚ
  ts : Nat
deriving DecidableEq

/-- Digit-string value, as `Number(sizeStr)` on a digit-only capture
(exact here; JS loses precision only above 2^53, far beyond any
timeframe magnitude in use). -/
def digitsToNat (ds : List Char) : Nat :=
  ds.foldl (fun acc c => 10 * acc + (c.toNat - '0'.toNat)) 0

/-- Leftmost match of the JS regex `/(\d+)([a-zA-Z]+)/` (used by
`getBucketedTimestamp`): the first maximal digit run that is
immediately followed by a letter, together with the maximal letter run
after it.  (Starting positions inside a failed digit run also fail, so
advancing one character at a time — as the JS engine does — is
equivalent to this recursion.) -/
def findMatchLong : List Char → Option (List Char × List Char)
  | [] => none
  | c :: rest =>
    if c.isDigit then
      let ds := List.takeWhile Char.isDigit (c :: rest)
      let after := List.dropWhile Char.isDigit (c :: rest)
      match List.takeWhile Char.isAlpha after with
      | [] => findMatchLong rest
      | us => some (ds, us)
    else
      findMatchLong rest

/-- Leftmost match of the JS regex `/(\d+)([smhd])/i` (used by
`timeframeToMs`): the first maximal digit run immediately followed by a
unit letter; the unit is returned lowercased.  (Greedy `\d+` cannot
backtrack usefully because the unit class contains no digit.) -/
def findMatchShort : List Char → Option (Nat × Char)
  | [] => none
  | c :: rest =>
    if c.isDigit then
      let ds := List.takeWhile Char.isDigit (c :: rest)
      let after := List.dropWhile Char.isDigit (c :: rest)
      match after with
      | u :: _ =>
        if u.toLower = 's' ∨ u.toLower = 'm' ∨ u.toLower = 'h' ∨ u.toLower = 'd' then
          some (digitsToNat ds, u.toLower)
        else findMatchShort rest
      | [] => none
    else
      findMatchShort rest

/-- Source `Index.tsx` `timeframeToMs` (lines 15–27): parse
`/(\d+)([smhd])/i` and multiply the magnitude by the milliseconds of
the unit; `null` (here `none`) when there is no match.  The
`unitMap[unit] ? … : null` guard is always taken for a matched unit
since all four unit values are non-zero. -/
def timeframeToMs (tf : String) : Option Nat :=
  match findMatchShort tf.data with
  | none => none
  | some (value, unit) =>
    let unitMs : Nat :=
      if unit = 's' then 1000
      else if unit = 'm' then 60 * 1000
      else if unit = 'h' then 60 * 60 * 1000
      else 24 * 60 * 60 * 1000
    some (value * unitMs)

def DEFAULT_CANDLE_LOOKBACK : Nat := 480

def MAX_LOOKBACK_WINDOW_MS : Nat := 14 * 24 * 60 * 60 * 1000

/-- Source `Index.tsx` `getLookbackDurationMs` (lines 32–40).  `!intervalMs`
is JS truthiness: both `null` and `0` short-circuit to `null`. -/
def getLookbackDurationMs (tf : String) : Option Nat :=
  match timeframeToMs tf with
  | none => none
  | some 0 => none
  | some intervalMs => some (min (intervalMs * DEFAULT_CANDLE_LOOKBACK) MAX_LOOKBACK_WINDOW_MS)

/-- Source `Index.tsx` `getBucketedTimestamp` (lines 117–153), on an instant
`t` in ms since epoch (the epoch is UTC-day aligned, so the UTC
second/minute/hour fields are `t / 1000 % 60`, `t / 60000 % 60`,
`t / 3600000 % 24`).

* `setUTCMilliseconds(0)` and the following setUTCSeconds /
  setUTCMinutes / setUTCHours calls are the corresponding
  floor-and-set arithmetic below.
* The regex-less fallback uses `setSeconds(0, 0)` (local time), which
  zeroes the same seconds/milliseconds fields (time-zone offsets are
  whole minutes), i.e. the same 1-minute flooring.
* A matched magnitude of `0` would make the JS `Math.floor(x / 0)`
  produce `NaN` and an Invalid Date (a thrown `RangeError`); the
  theorems below therefore only speak about magnitudes `≥ 1`, where
  the `Nat` division agrees with JS. -/
def getBucketedTimestamp (t : Nat) (tf : String) : Nat :=
  if tf = "live" then
    t - t % 1000
  else
    match findMatchLong tf.data with
    | none => t - t % 60000
    | some (ds, unit) =>
      let size := digitsToNat ds
      if unit = ['s'] then
        (t - t % 60000) + t / 1000 % 60 / size * size * 1000
      else if unit = ['m'] then
        (t - t % 3600000) + t / 60000 % 60 / size * size * 60000
      else if unit = ['h'] then
        (t - t % 86400000) + t / 3600000 % 24 / size * size * 3600000
      else
        t - t % 60000

/-- Comparator used by the sorts in `Index.tsx`
(`(a, b) => new Date(a.ts).getTime() - new Date(b.ts).getTime()`):
ascending by bucket timestamp. -/
def candleLE (a b : Candle) : Prop := a.ts ≤ b.ts

instance : DecidableRel candleLE :=
  fun a b => inferInstanceAs (Decidable (a.ts ≤ b.ts))

/-- Source `Index.tsx`, the `setPriceData` updater body for one symbol
(lines 350–431): same-bucket in-place update with epsilon suppression,
append-new-bucket with retention trim and re-sort, late-tick drop, and
first-candle initialisation.

* `newData[newData.length - 1] = updatedLast` on a copy of the array is
  `dropLast ++ [updatedLast]`.
* `slice(-maxCandles)` keeps the last `maxCandles` elements
  (`maxCandles ≥ 5` always, so the `slice(-0)` corner cannot occur).
* The JS `sort` is required (ES2019) to be a stable sort, and all
  stable sorts of a list under one comparator produce the same output,
  so it is modelled by the stable `List.insertionSort candleLE`.
* `Math.ceil(lookbackMs / tfMs)` on positive integers is
  `(l + t - 1) / t`.
* `(last.volume || 0)` equals `last.volume` for every number except
  `NaN` (and `0`, where both read `0`). -/
def applyTick (symbolData : List Candle) (bucketTs : Nat) (price qty : ℚ)
    (effectiveTimeframe : String) : List Candle :=
  if h : symbolData = [] then
    [⟨bucketTs, price, price, price, price, qty⟩]
  else
    let last := symbolData.getLast h
    if last.ts = bucketTs then
      let updatedLast : Candle :=
        { last with close := price, high := max last.high price,
                    low := min last.low price, volume := last.volume + qty }
      let priceThreshold : ℚ := max (last.close * (1 / 1000000)) (1 / 1000)
      let volumeThreshold : ℚ := 1 / 10000
      let closeChanged := |updatedLast.close - last.close| > priceThreshold
      let highChanged := |updatedLast.high - last.high| > priceThreshold
      let lowChanged := |updatedLast.low - last.low| > priceThreshold
      let volumeChanged := |updatedLast.volume - last.volume| > volumeThreshold
      if ¬closeChanged ∧ ¬highChanged ∧ ¬lowChanged ∧ ¬volumeChanged then
        symbolData
      else
        symbolData.dropLast ++ [updatedLast]
    else if bucketTs > last.ts then
      let tfMs := timeframeToMs effectiveTimeframe
      let lookbackMs := getLookbackDurationMs effectiveTimeframe
      let maxCandles : Nat :=
        match tfMs, lookbackMs with
        | some t, some l =>
          if t ≠ 0 ∧ l ≠ 0 then (l + t - 1) / t + 5 else DEFAULT_CANDLE_LOOKBACK
        | _, _ => DEFAULT_CANDLE_LOOKBACK
      let appended := symbolData ++ [⟨bucketTs, price, price, price, price, qty⟩]
      List.insertionSort candleLE (appended.drop (appended.length - maxCandles))
    else
      symbolData

def PRICE_UPDATE_THROTTLE_MS : Nat := 100

/-- Source `Index.tsx` lines 324–345 for one symbol: the throttle gate.
Returns the new `lastPriceUpdateRef` entry, the new pending slot, and
the flushed pending update (`none` when throttled).
`lastPriceUpdateRef.current[s] || 0` is `Option.getD _ 0`; the slot is
overwritten with the new tick before the gate is evaluated, and it is
not cleared on flush. -/
def throttleStep (lastPriceUpdate : Option Nat) (now : Nat) (tick : Pending) :
    Option Nat × Option Pending × Option Pending :=
  let lastUpdate := lastPriceUpdate.getD 0
  let slot := some tick
  if now - lastUpdate < PRICE_UPDATE_THROTTLE_MS then
    (lastPriceUpdate, slot, none)
  else
    (some now, slot, some tick)

/-- Fold `throttleStep` over a burst of ticks, each with its arrival
instant; returns the final `(lastPriceUpdateRef entry, pending slot)`
and the list of flushed updates, in order. -/
def runThrottle (lastPriceUpdate : Option Nat) (slot : Option Pending) :
    List (Nat × Pending) → (Option Nat × Option Pending) × List Pending
  | [] => ((lastPriceUpdate, slot), [])
  | (now, tick) :: rest =>
    let r := throttleStep lastPriceUpdate now tick
    let tail := runThrottle r.1 r.2.1 rest
    (tail.1, r.2.2.toList ++ tail.2)

/-- Source `Index.tsx` lines 286–322: the `setTickerData` updater run
for each accepted trade tick.  The guard `existing && existing.openPrice`
is JS truthiness, i.e. an existing snapshot with non-zero `openPrice`;
`existing.highPrice || lastPrice` and `existing.lowPrice || lastPrice`
likewise read `lastPrice` when the stored field is `0`. -/
def tickerOnTick (existing : Option Ticker) (lastPrice : ℚ) : Ticker :=
  match existing with
  | some ex =>
    if ex.openPrice ≠ 0 then
      { ex with
        lastPrice := lastPrice,
        priceChange := lastPrice - ex.openPrice,
        priceChangePercent := (lastPrice - ex.openPrice) / ex.openPrice * 100,
        highPrice := max (if ex.highPrice = 0 then lastPrice else ex.highPrice) lastPrice,
        lowPrice := min (if ex.lowPrice = 0 then lastPrice else ex.lowPrice) lastPrice }
    else
      ⟨0, 0, lastPrice, lastPrice, lastPrice, lastPrice, 0, 0⟩
  | none => ⟨0, 0, lastPrice, lastPrice, lastPrice, lastPrice, 0, 0⟩

/-- Source `Index.tsx` `resolveNumber` (lines 438–442), abstracted over
the JS `Number` conversion builtin `toNumber` (its exact string-parsing
behaviour is irrelevant to every property proved below): a value of JS
type number is returned as-is (finite or not); anything else is
converted from `value ?? fallback ?? 0` and replaced by `0` unless the
conversion result is finite. -/
def resolveNumber (toNumber : JSVal → JSNum) (value fallback : JSVal) : JSNum :=
  match value with
  | .num n => n
  | _ =>
    let parsed := toNumber (nullishOr value (nullishOr fallback (.num (.fin 0))))
    if isFiniteNum parsed then parsed else .fin 0

/-- Source `Index.tsx` lines 455–468: the `setTickerData` updater for a
periodic (24h) ticker message, applied to one symbol with the already
resolved eight-field snapshot `newTickerData`.  The epsilon gate
compares only `lastPrice` and `priceChangePercent`. -/
def tickerMsgStep (existing : Option Ticker) (newTickerData : Ticker) : Option Ticker :=
  match existing with
  | some ex =>
    if |ex.lastPrice - newTickerData.lastPrice| < 1 / 100 ∧
       |ex.priceChangePercent - newTickerData.priceChangePercent| < 1 / 100 then
      some ex
    else
      some newTickerData
  | none => some newTickerData

/-- Source `Index.tsx` `fetchData`, analytics branch (lines 210–224),
as a transformer of the `analyticsData` state: with at least one
selected symbol it fetches a (self- or pair-) analytics snapshot and
stores whatever the call resolves to; a rejected call (`.error`) only
logs and leaves the state unchanged. -/
def fetchDataAnalytics (selectedSymbols : List String)
    (result : Except Unit (Option AnalyticsSnapshot))
    (analyticsData : Option AnalyticsSnapshot) : Option AnalyticsSnapshot :=
  if 1 ≤ selectedSymbols.length then
    match result with
    | .ok a => a
    | .error _ => analyticsData
  else
    analyticsData

/-- Source `Index.tsx` `fetchAnalytics` (lines 493–528), as a
transformer of the `analyticsData` state: with exactly two selected
symbols a successful non-null fetch is stored, a null fetch or a
rejected call clears the state; with any other cardinality the state is
cleared (the `analyticsData !== null` guard only skips a redundant
`setAnalyticsData(null)`). -/
def fetchAnalyticsStep (selectedSymbols : List String)
    (result : Except Unit (Option AnalyticsSnapshot))
    (analyticsData : Option AnalyticsSnapshot) : Option AnalyticsSnapshot :=
  if selectedSymbols.length = 2 then
    match result with
    | .ok (some analytics) => some analytics
    | .ok none => none
    | .error _ => none
  else
    none

/-- The mutable session state of the `Index` component: React state
(`isStreaming`, `tickCount`, `selectedSymbols`, `timeframe`,
`priceData`, `analyticsData`, `tickerData`) and the refs
(`tickCounterRef`, `lastTickUpdateRef`, `lastPriceUpdateRef`,
`pendingUpdatesRef`).  Per-symbol records are modelled as functions
from the symbol string; a missing key is `none` / `[]`. -/
structure IndexState where
  isStreaming : Bool
  tickCount : Nat
  selectedSymbols : List String
  timeframe : String
  priceData : String → List Candle
  analyticsData : Option AnalyticsSnapshot
  tickerData : String → Option Ticker
  tickCounterRef : Nat
  lastTickUpdateRef : Nat
  lastPriceUpdateRef : String → Option Nat
  pendingUpdatesRef : String → Option Pending

/-- Point update of a per-symbol record. -/
def updFn {β : Type} (f : String → β) (sym : String) (v : β) : String → β :=
  fun s => if s = sym then v else f s

/-- An inbound trade/tick message after field extraction
(`const tick = message.data || message` and the `||` fallbacks):
* `symbol` is the resolved `tick.symbol || message.symbol`; a missing
  symbol is `none`.  A non-string truthy symbol would pass the
  truthiness test but then fail `selectedSymbols.includes` against a
  list of strings, so it is also modelled as `none` — rejected either
  way, with no state change.
* `price` is the resolved `tick.price || message.price`, an arbitrary
  JS value.
* `qty` is the resolved `tick.qty || message.qty || 0` (modelled
  numeric; no claim involves a non-numeric qty).
* `ts` is the resolved `tick.ts || message.ts`, a valid instant (a
  missing/invalid ts throws inside `toISOString` and is caught by the
  surrounding try/catch; no claim involves that path). -/
structure TickMsg where
  symbol : Option String
  price : JSVal
  qty : ℚ
  ts : Nat

/-- Source `Index.tsx` lines 263–271: the tick validation gate —
truthy symbol, price of JS type number (finiteness is NOT checked), and
symbol in the active subscription list. -/
def tickAccepted (selectedSymbols : List String) (msg : TickMsg) : Bool :=
  match msg.symbol with
  | none => false
  | some sym => !(sym == "") && isNumberType msg.price && selectedSymbols.contains sym

/-- Source `Index.tsx` lines 252–431: the trade/tick branch of
`ws.onmessage`, as one state transformer.  `now` is the `Date.now()`
read at line 275.  Mirrors the source order: validation, tick counter,
bounded-cadence `setTickCount`, `setTickerData`, pending-slot write and
throttle gate (`throttleStep`), then on flush the bucketing
(`getBucketedTimestamp` with `timeframe || '1m'`) and the `setPriceData`
updater (`applyTick`). -/
def processTickMsg (st : IndexState) (msg : TickMsg) (now : Nat) : IndexState :=
  if tickAccepted st.selectedSymbols msg then
    match msg.symbol with
    | none => st
    | some sym =>
      let tickPrice : ℚ := (match msg.price with | .num n => n | _ => .fin 0).toQ
      let st1 := { st with tickCounterRef := st.tickCounterRef + 1 }
      let st2 :=
        if now - st1.lastTickUpdateRef > 100 then
          { st1 with tickCount := st1.tickCounterRef, lastTickUpdateRef := now }
        else st1
      let st3 := { st2 with
        tickerData := updFn st2.tickerData sym (some (tickerOnTick (st2.tickerData sym) tickPrice)) }
      let r := throttleStep (st3.lastPriceUpdateRef sym) now ⟨tickPrice, msg.qty, msg.ts⟩
      let st4 := { st3 with
        pendingUpdatesRef := updFn st3.pendingUpdatesRef sym r.2.1,
        lastPriceUpdateRef := updFn st3.lastPriceUpdateRef sym r.1 }
      match r.2.2 with
      | none => st4
      | some pendingUpdate =>
        let effectiveTimeframe := if st4.timeframe = "" then "1m" else st4.timeframe
        let bucketTs := getBucketedTimestamp pendingUpdate.ts effectiveTimeframe
        let newData := applyTick (st4.priceData sym) bucketTs pendingUpdate.price
          pendingUpdate.qty effectiveTimeframe
        { st4 with priceData := updFn st4.priceData sym newData }
  else
    st

/-- Source `Index.tsx` `handleStartStream` (lines 555–568), success
path: after the `startStream` API call resolves, set
`isStreaming := true` and reset the React state `tickCount`,
`priceData`, `tickerData`, `analyticsData`.  None of the refs
(`tickCounterRef`, `lastTickUpdateRef`, `lastPriceUpdateRef`,
`pendingUpdatesRef`) is touched. -/
def handleStartStream (st : IndexState) : IndexState :=
  { st with
    isStreaming := true,
    tickCount := 0,
    priceData := fun _ => [],
    tickerData := fun _ => none,
    analyticsData := none }

/-! ## Arithmetic helpers for the bucketing proofs -/

/-- Flooring to a coarse boundary `D` and then adding back the floored
fine field equals flooring to the fine boundary `d`, when `d ∣ D`. -/
theorem floor_add_floor_mod (t d D : Nat) (hdvd : d ∣ D) :
    (t - t % D) + t % D / d * d = t - t % d := by
  have h1 : t % D % d = t % d := Nat.mod_mod_of_dvd t hdvd
  have h2 := Nat.div_add_mod' (t % D) d
  have h3 : t % D ≤ t := Nat.mod_le t D
  have h4 : t % d ≤ t % D := by rw [← h1]; exact Nat.mod_le _ d
  omega

/-- Field-within-parent flooring: zeroing everything below the parent
unit `u * c` and setting the `u`-field to itself floored to a multiple
of `n` equals flooring the instant to a multiple of `n * u`, provided
`n` divides the parent size `c`. -/
theorem bucket_unit_floor (t n u c : Nat) (hn : n ∣ c) :
    (t - t % (u * c)) + t / u % c / n * n * u = t - t % (n * u) := by
  have e1 : t / u % c = t % (u * c) / u := (Nat.mod_mul_right_div_self t u c).symm
  have e2 : t % (u * c) / u / n = t % (u * c) / (u * n) := Nat.div_div_eq_div_mul _ _ _
  have hdvd : (n * u) ∣ (u * c) := by
    obtain ⟨k, hk⟩ := hn
    exact ⟨k, by rw [hk]; ring⟩
  rw [e1, e2, Nat.mul_comm u n, Nat.mul_assoc]
  exact floor_add_floor_mod t (n * u) (u * c) hdvd

/-! ## C3: bucket-start computation -/

/-- C3 (counterexample): the claim says the timeframe string "1d"
floors the instant to the start of the UTC day.  It does not: at
2024-01-01T10:23:45.678Z (= 1704104625678 ms) the code returns the
1-minute floor 2024-01-01T10:23:00Z (= 1704104580000), not the UTC-day
start 2024-01-01T00:00:00Z (= 1704067200000), because the unit "d"
falls into the final `else` branch of `getBucketedTimestamp`, which
only zeroes seconds and milliseconds. -/
theorem C3_day_bucket_counterexample :
    getBucketedTimestamp 1704104625678 "1d" = 1704104580000 ∧
    getBucketedTimestamp 1704104625678 "1d" ≠ 1704067200000 ∧
    1704067200000 = 1704104625678 - 1704104625678 % 86400000 := by
  refine ⟨by decide, by decide, by decide⟩

/-- C3 (amended): for timeframes of the form magnitude + unit with unit
in {s, m, h} and the magnitude dividing the parent calendar unit
(60 s, 60 min, 24 h), the bucket key is the instant floored to that
timeframe boundary in UTC; the special "live" timeframe produces
1-second buckets; and unit "d" — like every other unit outside
{s, m, h} and every unmatched timeframe string — falls back to
1-minute flooring (so "1d" floors to the minute, not to the UTC day). -/
theorem C3_bucketStart_amended (t n : Nat) (tf : String) (ds : List Char)
    (hn : digitsToNat ds = n) :
    (getBucketedTimestamp t "live" = t - t % 1000)
    ∧ (findMatchLong tf.data = some (ds, ['s']) → n ∣ 60 →
         getBucketedTimestamp t tf = t - t % (n * 1000))
    ∧ (findMatchLong tf.data = some (ds, ['m']) → n ∣ 60 →
         getBucketedTimestamp t tf = t - t % (n * 60000))
    ∧ (findMatchLong tf.data = some (ds, ['h']) → n ∣ 24 →
         getBucketedTimestamp t tf = t - t % (n * 3600000))
    ∧ (∀ us, findMatchLong tf.data = some (ds, us) →
         us ≠ ['s'] → us ≠ ['m'] → us ≠ ['h'] →
         getBucketedTimestamp t tf = t - t % 60000)
    ∧ (tf ≠ "live" → findMatchLong tf.data = none →
         getBucketedTimestamp t tf = t - t % 60000) := by
  have hlive : ∀ tf0 : String, tf0 ≠ "live" →
      ∀ r, findMatchLong tf0.data = r →
      getBucketedTimestamp t tf0 =
        (match r with
         | none => t - t % 60000
         | some (ds0, unit) =>
           let size := digitsToNat ds0
           if unit = ['s'] then
             (t - t % 60000) + t / 1000 % 60 / size * size * 1000
           else if unit = ['m'] then
             (t - t % 3600000) + t / 60000 % 60 / size * size * 60000
           else if unit = ['h'] then
             (t - t % 86400000) + t / 3600000 % 24 / size * size * 3600000
           else
             t - t % 60000) := by
    intro tf0 hne r hr
    simp only [getBucketedTimestamp, if_neg hne, hr]
  have hnotlive : ∀ (p : List Char × List Char), findMatchLong tf.data = some p → tf ≠ "live" := by
    intro p hp heq
    rw [heq] at hp
    have hnone : findMatchLong "live".data = none := by decide
    rw [hnone] at hp
    exact Option.noConfusion hp
  refine ⟨by simp [getBucketedTimestamp], ?_, ?_, ?_, ?_, ?_⟩
  · intro hm hdvd
    rw [hlive tf (hnotlive _ hm) _ hm]
    simp only [hn, if_pos rfl]
    have := bucket_unit_floor t n 1000 60 hdvd
    norm_num at this ⊢
    exact this
  · intro hm hdvd
    rw [hlive tf (hnotlive _ hm) _ hm]
    simp only [hn]
    norm_num
    have := bucket_unit_floor t n 60000 60 hdvd
    norm_num at this ⊢
    exact this
  · intro hm hdvd
    rw [hlive tf (hnotlive _ hm) _ hm]
    simp only [hn]
    norm_num
    have := bucket_unit_floor t n 3600000 24 hdvd
    norm_num at this ⊢
    exact this
  · intro us hm hs hm2 hh
    rw [hlive tf (hnotlive _ hm) _ hm]
    simp only [if_neg hs, if_neg hm2, if_neg hh]
  · intro hne hm
    rw [hlive tf hne _ hm]

/-! ## Candle-store case lemmas -/

/-- Empty store: a flushed tick initialises the first candle. -/
theorem applyTick_nil (b : Nat) (p q : ℚ) (tf : String) :
    applyTick [] b p q tf = [⟨b, p, p, p, p, q⟩] := by
  simp [applyTick]

/-- Late tick (bucket strictly before the last candle): the store is
returned unchanged. -/
theorem applyTick_late (s : List Candle) (b : Nat) (p q : ℚ) (tf : String)
    (h : s ≠ []) (hlt : b < (s.getLast h).ts) :
    applyTick s b p q tf = s := by
  unfold applyTick
  rw [dif_neg h]
  rw [if_neg (by omega : ¬ (s.getLast h).ts = b)]
  rw [if_neg (by omega : ¬ b > (s.getLast h).ts)]

/-- Same bucket: the result is either the unchanged store (epsilon
suppression) or the store with just its last candle replaced by the
accumulated update. -/
theorem applyTick_same_shape (s : List Candle) (b : Nat) (p q : ℚ) (tf : String)
    (h : s ≠ []) (hts : (s.getLast h).ts = b) :
    applyTick s b p q tf = s ∨
    applyTick s b p q tf = s.dropLast ++
      [⟨(s.getLast h).ts, (s.getLast h).opn, max (s.getLast h).high p,
        min (s.getLast h).low p, p, (s.getLast h).volume + q⟩] := by
  unfold applyTick
  rw [dif_neg h, if_pos hts]
  dsimp only
  split
  · exact Or.inl rfl
  · exact Or.inr rfl

/-- Newer bucket: the result is the store with the fresh candle
appended, trimmed at the front to some retention bound, and re-sorted
by the stable sort. -/
theorem applyTick_append (s : List Candle) (b : Nat) (p q : ℚ) (tf : String)
    (h : s ≠ []) (hgt : b > (s.getLast h).ts) :
    ∃ k, applyTick s b p q tf =
      List.insertionSort candleLE ((s ++ [(⟨b, p, p, p, p, q⟩ : Candle)]).drop k) := by
  unfold applyTick
  rw [dif_neg h]
  rw [if_neg (by omega : ¬ (s.getLast h).ts = b), if_pos hgt]
  dsimp only
  exact ⟨_, rfl⟩

/-- In a store with strictly increasing bucket timestamps, every
element is at most the last one. -/
theorem ts_le_getLast (s : List Candle) (h : s ≠ [])
    (hs : s.Pairwise (fun a c => a.ts < c.ts)) :
    ∀ x ∈ s, x.ts ≤ (s.getLast h).ts := by
  induction s with
  | nil => exact absurd rfl h
  | cons a t ih =>
    intro x hx
    cases t with
    | nil =>
      rw [List.mem_singleton] at hx
      subst hx
      simp [List.getLast]
    | cons c t' =>
      rw [List.getLast_cons (List.cons_ne_nil c t')]
      rw [List.mem_cons] at hx
      rcases hx with rfl | hx
      · have hhead := (List.pairwise_cons.mp hs).1
        have hmem : (c :: t').getLast (List.cons_ne_nil c t') ∈ c :: t' :=
          List.getLast_mem _
        exact le_of_lt (hhead _ hmem)
      · exact ih (List.cons_ne_nil c t') (List.pairwise_cons.mp hs).2 x hx

/-! ## C5, C6, C7: candle-store properties -/

/-- C5: for every symbol, after any flushed tick update applied to a
store whose bucket timestamps are strictly increasing (an empty store,
or one seeded with at most one candle per bucket), the stored candle
sequence still has strictly increasing `ts` values — hence at most one
candle per bucket.  By induction this extends to any sequence of
updates, including out-of-order ones. -/
theorem C5_bucket_monotonicity (s : List Candle) (b : Nat) (p q : ℚ) (tf : String)
    (hs : (s.map Candle.ts).Pairwise (· < ·)) :
    ((applyTick s b p q tf).map Candle.ts).Pairwise (· < ·) := by
  rw [List.pairwise_map] at hs ⊢
  by_cases h : s = []
  · subst h
    rw [applyTick_nil]
    exact List.pairwise_singleton _ _
  · rcases lt_trichotomy b (s.getLast h).ts with hlt | heq | hgt
    · rw [applyTick_late s b p q tf h hlt]
      exact hs
    · rcases applyTick_same_shape s b p q tf h heq.symm with he | he
      · rw [he]; exact hs
      · rw [he]
        conv at hs => rw [← List.dropLast_append_getLast h]
        rw [List.pairwise_append] at hs ⊢
        refine ⟨hs.1, List.pairwise_singleton _ _, ?_⟩
        intro x hx y hy
        rw [List.mem_singleton] at hy
        subst hy
        exact hs.2.2 x hx (s.getLast h) (List.mem_singleton.mpr rfl)
    · rcases applyTick_append s b p q tf h hgt with ⟨k, he⟩
      rw [he]
      have hsort : ((s ++ [(⟨b, p, p, p, p, q⟩ : Candle)]).drop k).Pairwise
          (fun a c => a.ts < c.ts) := by
        apply List.Pairwise.sublist (List.drop_sublist k _)
        rw [List.pairwise_append]
        refine ⟨hs, List.pairwise_singleton _ _, ?_⟩
        intro x hx y hy
        rw [List.mem_singleton] at hy
        subst hy
        exact lt_of_le_of_lt (ts_le_getLast s h hs x hx) hgt
      rw [List.Sorted.insertionSort_eq]
      · exact hsort
      · exact List.Pairwise.imp le_of_lt hsort

/-- C5 (witness): a concrete run of the theorem on a seeded two-candle
store and a strictly newer tick. -/
theorem C5_bucket_monotonicity_witness :
    ((applyTick [⟨0, 10, 10, 10, 10, 1⟩, ⟨1000, 11, 11, 11, 11, 1⟩]
        2000 12 1 "1s").map Candle.ts).Pairwise (· < ·) :=
  C5_bucket_monotonicity _ 2000 12 1 "1s" (by decide)

/-- C7: a tick whose bucket start is strictly earlier than the last
stored candle leaves the store completely unchanged — the same list,
hence the same length and the same final candle, and no earlier candle
is mutated. -/
theorem C7_late_tick_drop (s : List Candle) (b : Nat) (p q : ℚ) (tf : String)
    (h : s ≠ []) (hlt : b < (s.getLast h).ts) :
    applyTick s b p q tf = s ∧
    (applyTick s b p q tf).length = s.length ∧
    (applyTick s b p q tf).getLast? = s.getLast? := by
  have he := applyTick_late s b p q tf h hlt
  exact ⟨he, by rw [he], by rw [he]⟩

/-- C7 (witness): a late tick against a concrete singleton store. -/
theorem C7_late_tick_drop_witness :
    applyTick [⟨60000, 100, 100, 100, 100, 1⟩] 0 105 2 "1s"
      = [⟨60000, 100, 100, 100, 100, 1⟩] :=
  (C7_late_tick_drop [⟨60000, 100, 100, 100, 100, 1⟩] 0 105 2 "1s"
    (by decide) (by decide)).1

/-- C6: two ticks in the same bucket, `(price 100, qty 1)` then
`(price 105, qty 2)`, applied from an empty store (so both hit the last
candle of their bucket) produce the candle
`{open 100, high 105, low 100, close 105, volume 3}`: close is the new
price, high/low take max/min, volume accumulates. -/
theorem C6_same_bucket_accumulation (b : Nat) (tf : String) :
    applyTick (applyTick [] b 100 1 tf) b 105 2 tf
      = [⟨b, 100, 105, 100, 105, 3⟩] := by
  rw [applyTick_nil]
  unfold applyTick
  rw [dif_neg (List.cons_ne_nil _ _)]
  dsimp only [List.getLast]
  rw [if_pos rfl]
  rw [if_neg (by norm_num)]
  norm_num [List.dropLast]

/-! ## C1: throttle/coalesce behaviour -/

/-- Both branches of the throttle gate leave the just-written tick in
the pending slot. -/
theorem throttleStep_slot (lu : Option Nat) (now : Nat) (tick : Pending) :
    (throttleStep lu now tick).2.1 = some tick := by
  unfold throttleStep
  dsimp only
  split <;> rfl

/-- After any burst, the pending slot holds the payload of the last
tick processed. -/
theorem runThrottle_slot (ticks : List (Nat × Pending)) (lu : Option Nat)
    (slot : Option Pending) (h : ticks ≠ []) :
    (runThrottle lu slot ticks).1.2 = some (ticks.getLast h).2 := by
  induction ticks generalizing lu slot with
  | nil => exact absurd rfl h
  | cons x rest ih =>
    obtain ⟨now, tick⟩ := x
    cases rest with
    | nil =>
      have hs := throttleStep_slot lu now tick
      simp [runThrottle, hs, List.getLast]
    | cons y rest' =>
      rw [List.getLast_cons (List.cons_ne_nil y rest')]
      simp only [runThrottle]
      exact ih (throttleStep lu now tick).1 (throttleStep lu now tick).2.1
        (List.cons_ne_nil y rest')

/-- Once a flush has set the per-symbol last-flush instant to `m`,
a burst whose arrival instants all lie below `m + 100` produces no
further flush and leaves the instant unchanged. -/
theorem runThrottle_no_flush (ticks : List (Nat × Pending)) (m : Nat)
    (slot : Option Pending) (hall : ∀ x ∈ ticks, x.1 < m + 100) :
    (runThrottle (some m) slot ticks).2 = []
    ∧ (runThrottle (some m) slot ticks).1.1 = some m := by
  induction ticks generalizing slot with
  | nil => exact ⟨rfl, rfl⟩
  | cons x rest ih =>
    obtain ⟨now, tick⟩ := x
    have hx := hall (now, tick) (List.mem_cons_self _ _)
    have hstep : throttleStep (some m) now tick = (some m, some tick, none) := by
      unfold throttleStep
      rw [if_pos (by unfold PRICE_UPDATE_THROTTLE_MS; simp at hx ⊢; omega)]
    have ih2 := ih (some tick) (fun y hy => hall y (List.mem_cons_of_mem _ hy))
    simpa [runThrottle, hstep] using ih2

/-- At most one flush occurs inside one burst, and every flushed value
is the payload of one of the ticks of the burst. -/
theorem runThrottle_flushes_burst (ticks : List (Nat × Pending)) (T : Nat)
    (hwin : ∀ x ∈ ticks, T ≤ x.1 ∧ x.1 < T + 100) :
    ∀ lu slot, (runThrottle lu slot ticks).2.length ≤ 1
      ∧ ∀ p ∈ (runThrottle lu slot ticks).2, p ∈ ticks.map Prod.snd := by
  induction ticks with
  | nil => intro lu slot; simp [runThrottle]
  | cons x rest ih =>
    obtain ⟨now, tick⟩ := x
    intro lu slot
    have hwrest : ∀ y ∈ rest, T ≤ y.1 ∧ y.1 < T + 100 :=
      fun y hy => hwin y (List.mem_cons_of_mem _ hy)
    by_cases hgate : now - lu.getD 0 < PRICE_UPDATE_THROTTLE_MS
    · have hstep : throttleStep lu now tick = (lu, some tick, none) := by
        unfold throttleStep
        rw [if_pos hgate]
      have hrest := ih hwrest lu (some tick)
      constructor
      · simpa [runThrottle, hstep] using hrest.1
      · intro p hp
        simp only [runThrottle, hstep, Option.toList_none, List.nil_append] at hp
        exact List.mem_cons_of_mem _ (hrest.2 p hp)
    · have hstep : throttleStep lu now tick = (some now, some tick, some tick) := by
        unfold throttleStep
        rw [if_neg hgate]
      have hT := hwin (now, tick) (List.mem_cons_self _ _)
      have hnf := runThrottle_no_flush rest now (some tick) (fun y hy => by
        have hy2 := hwrest y hy
        omega)
      constructor
      · simp [runThrottle, hstep, hnf.1]
      · intro p hp
        simp only [runThrottle, hstep, hnf.1, Option.toList_some, List.cons_append,
          List.nil_append, List.mem_singleton] at hp
        subst hp
        exact List.mem_cons_self _ _

/-- C1 (amended): for a burst of ticks of one symbol whose arrival
instants all lie within one throttle interval `[T, T + 100)`, starting
from any per-symbol throttle state: at most one flush into the candle
store occurs; any flushed value is the payload of one of the ticks of
the burst — namely the tick that triggered that flush, which need not
be the last tick — and after the burst the pending slot holds the last
tick of the burst, ready for the next eligible flush. -/
theorem C1_throttle_amended (lu : Option Nat) (slot : Option Pending)
    (ticks : List (Nat × Pending)) (T : Nat)
    (hwin : ∀ x ∈ ticks, T ≤ x.1 ∧ x.1 < T + 100) :
    (runThrottle lu slot ticks).2.length ≤ 1
    ∧ (∀ p ∈ (runThrottle lu slot ticks).2, p ∈ ticks.map Prod.snd)
    ∧ (∀ h : ticks ≠ [], (runThrottle lu slot ticks).1.2 = some (ticks.getLast h).2) := by
  have hb := runThrottle_flushes_burst ticks T hwin lu slot
  exact ⟨hb.1, hb.2, fun h => runThrottle_slot ticks lu slot h⟩

/-- C1 (amended, witness): a concrete two-tick burst 50 ms apart. -/
theorem C1_throttle_amended_witness :
    (runThrottle none none [(1000, ⟨100, 1, 1000⟩), (1050, ⟨105, 2, 1050⟩)]).2.length ≤ 1
    ∧ (∀ p ∈ (runThrottle none none [(1000, ⟨100, 1, 1000⟩), (1050, ⟨105, 2, 1050⟩)]).2,
        p ∈ [((1000 : Nat), (⟨100, 1, 1000⟩ : Pending)), (1050, ⟨105, 2, 1050⟩)].map Prod.snd)
    ∧ (∀ h : [((1000 : Nat), (⟨100, 1, 1000⟩ : Pending)), (1050, ⟨105, 2, 1050⟩)] ≠ [],
        (runThrottle none none [(1000, ⟨100, 1, 1000⟩), (1050, ⟨105, 2, 1050⟩)]).1.2
          = some ([((1000 : Nat), (⟨100, 1, 1000⟩ : Pending)), (1050, ⟨105, 2, 1050⟩)].getLast h).2) :=
  C1_throttle_amended none none [(1000, ⟨100, 1, 1000⟩), (1050, ⟨105, 2, 1050⟩)] 1000
    (by decide)

/-- C1 (counterexample): two ticks for BTCUSDT arrive 50 ms apart —
within one 100 ms throttle interval — into a fresh session.  Exactly
one flush reaches the candle store, but it carries the FIRST tick
(price 100, qty 1), because the gate is open when the burst starts and
flushes the slot that was just overwritten with that first tick; had
the flushed values been the last tick of the burst, as the claim
states, the stored candle would be `⟨1000, 105, 105, 105, 105, 2⟩`.
(IndexState fields in order: isStreaming, tickCount, selectedSymbols,
timeframe, priceData, analyticsData, tickerData, tickCounterRef,
lastTickUpdateRef, lastPriceUpdateRef, pendingUpdatesRef.) -/
theorem C1_throttle_counterexample :
    (processTickMsg
        (processTickMsg
          ⟨true, 0, ["BTCUSDT"], "1s", fun _ => [], none, fun _ => none, 0, 900,
            fun _ => none, fun _ => none⟩
          ⟨some "BTCUSDT", .num (.fin 100), 1, 1000⟩ 1000)
        ⟨some "BTCUSDT", .num (.fin 105), 2, 1050⟩ 1050).priceData "BTCUSDT"
      = [⟨1000, 100, 100, 100, 100, 1⟩]
    ∧ ([⟨1000, 100, 100, 100, 100, 1⟩] : List Candle)
        ≠ [⟨1000, 105, 105, 105, 105, 2⟩] := by
  exact ⟨by decide, by decide⟩

/-! ## C4: start() and session-state reset -/

/-- C4 (code-bug evidence): `handleStartStream` resets the React state
(visible tick count, candle stores, ticker snapshots, analytics
snapshot) but touches none of the refs.  Starting after a session that
had counted 5 ticks leaves `tickCounterRef = 5`, a stale pending
update and a stale per-symbol flush instant in place; the first tick
accepted after the restart bumps the internal counter to 6 and — once
the 100 ms display cadence passes — publishes a visible tick count of
6, not 1 as the claim (and the spec) require.
(IndexState fields in order: isStreaming, tickCount, selectedSymbols,
timeframe, priceData, analyticsData, tickerData, tickCounterRef,
lastTickUpdateRef, lastPriceUpdateRef, pendingUpdatesRef.) -/
theorem C4_start_reset_code_bug :
    (handleStartStream
        ⟨false, 5, ["BTCUSDT"], "1s", fun _ => [⟨0, 10, 10, 10, 10, 1⟩], none,
          fun _ => some ⟨0, 0, 10, 10, 10, 10, 0, 0⟩, 5, 900,
          fun _ => some 900, fun _ => some ⟨42, 1, 900⟩⟩).tickCount = 0
    ∧ (handleStartStream
        ⟨false, 5, ["BTCUSDT"], "1s", fun _ => [⟨0, 10, 10, 10, 10, 1⟩], none,
          fun _ => some ⟨0, 0, 10, 10, 10, 10, 0, 0⟩, 5, 900,
          fun _ => some 900, fun _ => some ⟨42, 1, 900⟩⟩).priceData "BTCUSDT" = []
    ∧ (handleStartStream
        ⟨false, 5, ["BTCUSDT"], "1s", fun _ => [⟨0, 10, 10, 10, 10, 1⟩], none,
          fun _ => some ⟨0, 0, 10, 10, 10, 10, 0, 0⟩, 5, 900,
          fun _ => some 900, fun _ => some ⟨42, 1, 900⟩⟩).tickerData "BTCUSDT" = none
    ∧ (handleStartStream
        ⟨false, 5, ["BTCUSDT"], "1s", fun _ => [⟨0, 10, 10, 10, 10, 1⟩], none,
          fun _ => some ⟨0, 0, 10, 10, 10, 10, 0, 0⟩, 5, 900,
          fun _ => some 900, fun _ => some ⟨42, 1, 900⟩⟩).tickCounterRef = 5
    ∧ (handleStartStream
        ⟨false, 5, ["BTCUSDT"], "1s", fun _ => [⟨0, 10, 10, 10, 10, 1⟩], none,
          fun _ => some ⟨0, 0, 10, 10, 10, 10, 0, 0⟩, 5, 900,
          fun _ => some 900, fun _ => some ⟨42, 1, 900⟩⟩).pendingUpdatesRef "BTCUSDT"
        = some ⟨42, 1, 900⟩
    ∧ (handleStartStream
        ⟨false, 5, ["BTCUSDT"], "1s", fun _ => [⟨0, 10, 10, 10, 10, 1⟩], none,
          fun _ => some ⟨0, 0, 10, 10, 10, 10, 0, 0⟩, 5, 900,
          fun _ => some 900, fun _ => some ⟨42, 1, 900⟩⟩).lastPriceUpdateRef "BTCUSDT"
        = some 900
    ∧ (processTickMsg
        (handleStartStream
          ⟨false, 5, ["BTCUSDT"], "1s", fun _ => [⟨0, 10, 10, 10, 10, 1⟩], none,
            fun _ => some ⟨0, 0, 10, 10, 10, 10, 0, 0⟩, 5, 900,
            fun _ => some 900, fun _ => some ⟨42, 1, 900⟩⟩)
        ⟨some "BTCUSDT", .num (.fin 100), 1, 10000⟩ 10000).tickCounterRef = 6
    ∧ (processTickMsg
        (handleStartStream
          ⟨false, 5, ["BTCUSDT"], "1s", fun _ => [⟨0, 10, 10, 10, 10, 1⟩], none,
            fun _ => some ⟨0, 0, 10, 10, 10, 10, 0, 0⟩, 5, 900,
            fun _ => some 900, fun _ => some ⟨42, 1, 900⟩⟩)
        ⟨some "BTCUSDT", .num (.fin 100), 1, 10000⟩ 10000).tickCount = 6 := by
  refine ⟨rfl, rfl, rfl, rfl, rfl, rfl, by decide, by decide⟩

/-! ## C2: analytics cardinality gating -/

/-- C2 (counterexample): with a single selected symbol (count ≠ 2) the
initial-fetch path `fetchData` stores a self-pair analytics snapshot,
so an analytics snapshot is created while fewer than two symbols are
subscribed, contradicting the claim that the snapshot is absent
whenever the count is not exactly 2. -/
theorem C2_cardinality_counterexample :
    fetchDataAnalytics ["BTCUSDT"]
        (Except.ok (some ⟨"BTCUSDT-BTCUSDT", [], [], [], [], none⟩)) none
      = some ⟨"BTCUSDT-BTCUSDT", [], [], [], [], none⟩
    ∧ (["BTCUSDT"] : List String).length ≠ 2 := by
  exact ⟨by decide, by decide⟩

/-- C2 (amended): the periodic refresh path `fetchAnalytics` does
enforce the gating: whenever the selected-symbol count is not exactly
2, one refresh step leaves the analytics snapshot cleared (`none`) —
in particular a 2 → 1 transition clears any existing snapshot within
one step, and that path never creates a snapshot with count ≠ 2.  The
initial-fetch path `fetchDataAnalytics`, however, stores a (self-pair)
snapshot for any count ≥ 1, so the gating is not a global invariant. -/
theorem C2_cardinality_amended (selectedSymbols : List String)
    (result : Except Unit (Option AnalyticsSnapshot))
    (cur : Option AnalyticsSnapshot)
    (h : selectedSymbols.length ≠ 2) :
    fetchAnalyticsStep selectedSymbols result cur = none := by
  unfold fetchAnalyticsStep
  rw [if_neg h]

/-- C2 (amended, witness): the 2 → 1 transition — one symbol left, a
stale snapshot still present — is cleared by one refresh step even
when the refresh succeeds. -/
theorem C2_cardinality_amended_witness :
    fetchAnalyticsStep ["BTCUSDT"]
        (Except.ok (some ⟨"BTCUSDT-ETHUSDT", [], [], [], [], none⟩))
        (some ⟨"BTCUSDT-ETHUSDT", [], [], [], [], none⟩) = none :=
  C2_cardinality_amended ["BTCUSDT"] _ _ (by decide)

/-! ## C8: periodic ticker snapshot epsilon gating -/

/-- C8 (counterexample): a periodic snapshot that matches the stored
one in `lastPrice` and `priceChangePercent` but differs by 1000 (far
more than 0.01) in `volume` is NOT stored — the gate consults only the
two fields, not all eight as the claim states.
(Ticker fields in order: priceChange, priceChangePercent, lastPrice,
openPrice, highPrice, lowPrice, volume, quoteVolume.) -/
theorem C8_ticker_epsilon_counterexample :
    tickerMsgStep (some ⟨0, 0, 100, 90, 110, 80, 0, 0⟩)
        ⟨0, 0, 100, 90, 110, 80, 1000, 0⟩
      = some ⟨0, 0, 100, 90, 110, 80, 0, 0⟩
    ∧ |(0 : ℚ) - 1000| > 1 / 100
    ∧ (⟨0, 0, 100, 90, 110, 80, 0, 0⟩ : Ticker) ≠ ⟨0, 0, 100, 90, 110, 80, 1000, 0⟩ := by
  refine ⟨?_, by norm_num, by simp⟩
  simp only [tickerMsgStep]
  rw [if_pos (by norm_num)]

/-- C8 (amended): on a periodic ticker snapshot for a symbol with an
existing snapshot, the stored state is either kept or replaced
wholesale (never mixed); it is kept exactly when BOTH `lastPrice` and
`priceChangePercent` are within 0.01 of the stored values, and replaced
wholesale exactly otherwise — the other six fields are never consulted
by the gate. -/
theorem C8_ticker_epsilon_amended (ex newT : Ticker) :
    (tickerMsgStep (some ex) newT = some ex ∨ tickerMsgStep (some ex) newT = some newT)
    ∧ ((|ex.lastPrice - newT.lastPrice| < 1 / 100 ∧
        |ex.priceChangePercent - newT.priceChangePercent| < 1 / 100) →
        tickerMsgStep (some ex) newT = some ex)
    ∧ (¬(|ex.lastPrice - newT.lastPrice| < 1 / 100 ∧
         |ex.priceChangePercent - newT.priceChangePercent| < 1 / 100) →
        tickerMsgStep (some ex) newT = some newT) := by
  by_cases hc : |ex.lastPrice - newT.lastPrice| < 1 / 100 ∧
      |ex.priceChangePercent - newT.priceChangePercent| < 1 / 100
  · have he : tickerMsgStep (some ex) newT = some ex := by
      simp only [tickerMsgStep]
      rw [if_pos hc]
    exact ⟨Or.inl he, fun _ => he, fun hn => absurd hc hn⟩
  · have he : tickerMsgStep (some ex) newT = some newT := by
      simp only [tickerMsgStep]
      rw [if_neg hc]
    exact ⟨Or.inr he, fun hcc => absurd hcc hc, fun _ => he⟩

/-- C8 (amended, witness): a snapshot moving `lastPrice` by a full unit
is stored wholesale. -/
theorem C8_ticker_epsilon_amended_witness :
    tickerMsgStep (some ⟨0, 0, 100, 90, 110, 80, 0, 0⟩)
        ⟨1, 0, 101, 90, 110, 80, 7, 0⟩
      = some ⟨1, 0, 101, 90, 110, 80, 7, 0⟩ :=
  (C8_ticker_epsilon_amended ⟨0, 0, 100, 90, 110, 80, 0, 0⟩
    ⟨1, 0, 101, 90, 110, 80, 7, 0⟩).2.2 (by norm_num)

/-! ## C9: tick normalizer acceptance -/

/-- C9 (amended): an inbound trade/tick message mutates no session
state — no candle, ticker, counter or pending-slot change — unless its
extracted symbol is a non-empty string, its extracted price has JS type
number (finiteness is NOT required: `Infinity` and `NaN` pass the
`typeof` check), and the symbol is in the active subscription set;
messages failing any of these are dropped silently, leaving the state
exactly unchanged. -/
theorem C9_normalizer_amended (st : IndexState) (msg : TickMsg) (now : Nat)
    (h : ¬ ∃ sym, msg.symbol = some sym ∧ sym ≠ "" ∧ isNumberType msg.price = true ∧
          sym ∈ st.selectedSymbols) :
    processTickMsg st msg now = st := by
  have hacc : tickAccepted st.selectedSymbols msg = false := by
    unfold tickAccepted
    cases hsym : msg.symbol with
    | none => rfl
    | some sym =>
      cases hb : (!(sym == "") && isNumberType msg.price && st.selectedSymbols.contains sym) with
      | false => exact hb
      | true =>
        exfalso
        apply h
        rw [Bool.and_eq_true, Bool.and_eq_true] at hb
        refine ⟨sym, hsym, ?_, hb.1.2, ?_⟩
        · intro heq
          subst heq
          simp at hb
        · simpa using hb.2
  simp [processTickMsg, hacc]

/-- C9 (amended, witness): a message with a missing symbol leaves a
concrete state untouched. -/
theorem C9_normalizer_amended_witness :
    processTickMsg
        ⟨true, 0, ["BTCUSDT"], "1s", fun _ => [], none, fun _ => none, 0, 900,
          fun _ => none, fun _ => none⟩
        ⟨none, .num (.fin 100), 1, 1000⟩ 1000
      = ⟨true, 0, ["BTCUSDT"], "1s", fun _ => [], none, fun _ => none, 0, 900,
          fun _ => none, fun _ => none⟩ :=
  C9_normalizer_amended _ _ _ (fun ⟨_, hsym, _⟩ => Option.noConfusion hsym)

/-- C9 (counterexample): a tick whose price is `Infinity` — a JS
number that is not finite, e.g. produced by `JSON.parse` of `1e999` —
passes the `typeof tickPrice !== 'number'` validation and mutates
state: the tick counter is incremented.  The claim's finiteness
requirement is not enforced by the code. -/
theorem C9_normalizer_counterexample :
    isNumberType (JSVal.num JSNum.inf) = true
    ∧ isFiniteNum JSNum.inf = false
    ∧ (processTickMsg
        ⟨true, 0, ["BTCUSDT"], "1s", fun _ => [], none, fun _ => none, 0, 900,
          fun _ => none, fun _ => none⟩
        ⟨some "BTCUSDT", .num .inf, 1, 1000⟩ 1000).tickCounterRef = 1
    ∧ processTickMsg
        ⟨true, 0, ["BTCUSDT"], "1s", fun _ => [], none, fun _ => none, 0, 900,
          fun _ => none, fun _ => none⟩
        ⟨some "BTCUSDT", .num .inf, 1, 1000⟩ 1000
      ≠ ⟨true, 0, ["BTCUSDT"], "1s", fun _ => [], none, fun _ => none, 0, 900,
          fun _ => none, fun _ => none⟩ := by
  refine ⟨rfl, rfl, by decide, fun hEq => ?_⟩
  have hproj := congrArg IndexState.tickCounterRef hEq
  have h1 : (processTickMsg
      ⟨true, 0, ["BTCUSDT"], "1s", fun _ => [], none, fun _ => none, 0, 900,
        fun _ => none, fun _ => none⟩
      ⟨some "BTCUSDT", .num .inf, 1, 1000⟩ 1000).tickCounterRef = 1 := by decide
  rw [h1] at hproj
  exact Nat.one_ne_zero hproj

/-! ## C10: ticker field totalization via resolveNumber -/

/-- C10: `resolveNumber` always yields a JS number for each of the
eight snapshot fields (never undefined, null or a non-numeric value):
a value that already has JS type number is returned exactly as-is;
otherwise the nullish-coalesced `value ?? fallback ?? 0` is converted,
the conversion is kept when finite, and anything non-finite is replaced
by `0` — so every stored field produced on this path is finite. -/
theorem C10_resolveNumber_total (toNumber : JSVal → JSNum) (value fallback : JSVal) :
    (∀ n, value = JSVal.num n → resolveNumber toNumber value fallback = n)
    ∧ (isNumberType value = false →
        isFiniteNum (resolveNumber toNumber value fallback) = true)
    ∧ (isNumberType value = false →
        isFiniteNum (toNumber (nullishOr value (nullishOr fallback (.num (.fin 0))))) = false →
        resolveNumber toNumber value fallback = .fin 0)
    ∧ (isNumberType value = false →
        isFiniteNum (toNumber (nullishOr value (nullishOr fallback (.num (.fin 0))))) = true →
        resolveNumber toNumber value fallback
          = toNumber (nullishOr value (nullishOr fallback (.num (.fin 0))))) := by
  cases value with
  | num n =>
    refine ⟨fun m hm => ?_, fun hfalse => by simp [isNumberType] at hfalse,
      fun hfalse => by simp [isNumberType] at hfalse,
      fun hfalse => by simp [isNumberType] at hfalse⟩
    cases hm
    rfl
  | undef =>
    refine ⟨fun m hm => JSVal.noConfusion hm, fun _ => ?_, fun _ hnf => ?_, fun _ hf => ?_⟩
    · unfold resolveNumber
      dsimp only
      split
      · rename_i hfin
        exact hfin
      · rfl
    · unfold resolveNumber
      dsimp only
      rw [if_neg (by rw [hnf]; exact Bool.false_ne_true)]
    · unfold resolveNumber
      dsimp only
      rw [if_pos hf]
  | jsNull =>
    refine ⟨fun m hm => JSVal.noConfusion hm, fun _ => ?_, fun _ hnf => ?_, fun _ hf => ?_⟩
    · unfold resolveNumber
      dsimp only
      split
      · rename_i hfin
        exact hfin
      · rfl
    · unfold resolveNumber
      dsimp only
      rw [if_neg (by rw [hnf]; exact Bool.false_ne_true)]
    · unfold resolveNumber
      dsimp only
      rw [if_pos hf]
  | str s =>
    refine ⟨fun m hm => JSVal.noConfusion hm, fun _ => ?_, fun _ hnf => ?_, fun _ hf => ?_⟩
    · unfold resolveNumber
      dsimp only
      split
      · rename_i hfin
        exact hfin
      · rfl
    · unfold resolveNumber
      dsimp only
      rw [if_neg (by rw [hnf]; exact Bool.false_ne_true)]
    · unfold resolveNumber
      dsimp only
      rw [if_pos hf]
  | bool b =>
    refine ⟨fun m hm => JSVal.noConfusion hm, fun _ => ?_, fun _ hnf => ?_, fun _ hf => ?_⟩
    · unfold resolveNumber
      dsimp only
      split
      · rename_i hfin
        exact hfin
      · rfl
    · unfold resolveNumber
      dsimp only
      rw [if_neg (by rw [hnf]; exact Bool.false_ne_true)]
    · unfold resolveNumber
      dsimp only
      rw [if_pos hf]

/-- C10 (witness): a non-numeric string value with a missing fallback,
under a conversion that yields `NaN`, is stored as `0` — a finite
number. -/
theorem C10_resolveNumber_total_witness :
    isFiniteNum (resolveNumber (fun _ => JSNum.nan) (JSVal.str "abc") JSVal.undef) = true :=
  (C10_resolveNumber_total (fun _ => JSNum.nan) (JSVal.str "abc") JSVal.undef).2.1 rfl

/-- C3 (amended, witness): the "5m" timeframe floors a concrete
instant to its 5-minute boundary. -/
theorem C3_bucketStart_amended_witness :
    getBucketedTimestamp 1704104625678 "5m" = 1704104625678 - 1704104625678 % (5 * 60000) :=
  (C3_bucketStart_amended 1704104625678 5 "5m" ['5'] (by decide)).2.2.1
    (by decide) (by decide)
